import Mathlib

/-!
Verification of the cli50 container session orchestrator.

The development shallowly embeds the two source variants of the
orchestrator (the package `cli50/__main__.py` and the legacy single-file
`cli50.py`).  Python strings are modelled as `List Char`; the engine, the
filesystem and the interactive user are modelled as an explicit oracle
record, and `main` is modelled as a function producing the list of
observable events (engine commands issued, prompts shown, text printed,
process exit) of one invocation.  Pure helper functions of the source
(`ports`, `pull`, the mounts parser, the dotfile validation loop, the
port validation loop, the image-freshness decision) are translated
definition by definition.
-/

namespace Cli50

/-- Python strings are modelled as lists of characters. -/
abbrev PyStr := List Char

/-- Conversion of a Lean string literal to the Python string model. -/
def S (s : String) : PyStr := s.toList

/-- Python `s.startswith(p)`. -/
def startswith (s p : PyStr) : Bool := p.isPrefixOf s

/-- Characters stripped by Python `str.strip()` / `str.rstrip()`
(the `\s` class of the `re` module restricted to ASCII, which is all the
orchestrator ever strips). -/
def pyIsSpace (c : Char) : Bool :=
  c = ' ' || c = '\t' || c = '\n' || c = '\r' || c = '\x0b' || c = '\x0c'

/-- Python `s.strip()`. -/
def pyStrip (s : PyStr) : PyStr :=
  ((s.dropWhile pyIsSpace).reverse.dropWhile pyIsSpace).reverse

/-- Python `s.rstrip()`. -/
def pyRstrip (s : PyStr) : PyStr :=
  (s.reverse.dropWhile pyIsSpace).reverse

/-- Python `s.lower()` (the orchestrator only lowercases ASCII). -/
def pyLower (s : PyStr) : PyStr := s.map Char.toLower

/-- Python `s.split(sep)` for a one-character separator
(`"".split(sep) = [""]`, exactly as in Python). -/
def splitOnChar (c : Char) : PyStr → List PyStr
  | [] => [[]]
  | x :: xs =>
    let r := splitOnChar c xs
    if x = c then [] :: r
    else
      match r with
      | y :: ys => (x :: y) :: ys
      | [] => [[x]]

/-- Python `s.splitlines()` for newline-separated engine output
(`"".splitlines() = []`; the orchestrator always `rstrip`s first, so no
trailing separator is present and only `\n` occurs). -/
def splitlines (s : PyStr) : List PyStr :=
  if s = [] then [] else splitOnChar '\n' s

/-- Python `os.path.join(a, b)` for the two-argument uses in the source. -/
def pyJoin (a b : PyStr) : PyStr :=
  if startswith b (S "/") then b
  else if a = [] then b
  else if a.getLast? = some '/' then a ++ b
  else a ++ '/' :: b

/-- Decimal rendering of an integer, as Python `f-string` formatting of an
`int` renders it. -/
def intStr (n : Int) : PyStr := (toString n).toList

/-- Image repository to use (`IMAGE`, `__main__.py` line 21). -/
def IMAGE : PyStr := S "cs50/cli"

/-- Container label to use (`LABEL`, `__main__.py` line 24). -/
def LABEL : PyStr := S "cli50"

/-- Default ports to publish (`PORTS`, `__main__.py` lines 27-30). -/
def PORTS : List Int := [5000, 8080]

/-- Default tag (`TAG`, `__main__.py` line 33). -/
def TAG : PyStr := S "latest"

/-- Image reference `IMAGE:tag` as interpolated throughout `__main__.py`. -/
def imageTag (tag : PyStr) : PyStr := IMAGE ++ S ":" ++ tag

/-- Character class `[0-9a-fA-F]` of the hash-ignoring regex
(`__main__.py` line 117). -/
def isHexChar (c : Char) : Bool :=
  ('0' ≤ c && c ≤ '9') || ('a' ≤ c && c ≤ 'f') || ('A' ≤ c && c ≤ 'F')

/-- Test for the anchored regex `^[0-9a-fA-F]{64}$` used to drop
anonymous-volume identifiers from the mounts column. -/
def hex64 (t : PyStr) : Bool := t.length == 64 && t.all isHexChar

/-- Virtualized host-mount path prefix stripped from mount tokens. -/
def hostMnt : PyStr := S "/host_mnt"

/-- Python `re.sub(r"^/host_mnt", "", Mount)`: the anchored pattern
replaces at most one occurrence, at the start. -/
def subHostMnt (t : PyStr) : PyStr :=
  if startswith t hostMnt then t.drop hostMnt.length else t

/-- Mounts-column parsing of `__main__.py` lines 116-117: split the raw
field on commas, drop every 64-hex-digit token, strip the `/host_mnt`
prefix from what remains. -/
def parseMounts (raw : PyStr) : List PyStr :=
  ((splitOnChar ',' raw).filter (fun t => !hex64 t)).map subHostMnt

/-- Structured record for one line of `docker ps` output
(`__main__.py` line 118). -/
structure ContainerRec where
  id : PyStr
  image : PyStr
  runningFor : PyStr
  status : PyStr
  mounts : List PyStr
deriving DecidableEq, Repr

/-- Parsing of one listing line (`__main__.py` lines 115-118): the line is
`rstrip`ed, split on tabs, destructured as `ID, Image, RunningFor, Status,
*Mounts`; fewer than four fields raises `ValueError` in Python, modelled
as `none`. -/
def parseLine (line : PyStr) : Option ContainerRec :=
  match splitOnChar '\t' (pyRstrip line) with
  | id :: image :: runningFor :: status :: mounts =>
    let ms := match mounts with
      | [] => []
      | m :: _ => parseMounts m
    some ⟨id, image, pyLower runningFor, pyLower status, ms⟩
  | _ => none

/-- Parsing of the whole `docker ps` stdout (`__main__.py` lines 113-118).
An unparsable line is an uncaught `ValueError` in Python, modelled as
`Except.error`. -/
def parseContainers (out : PyStr) : Except Unit (List ContainerRec) :=
  match (splitlines (pyRstrip out)).mapM parseLine with
  | some cs => Except.ok cs
  | none => Except.error ()

/-- Formatting of the `ports` helper (`__main__.py` lines 308-321): split
the raw `docker ps --format .Ports` output on `", "`, drop IPv6 mappings
(those starting with `:::`), and rejoin with `", "`. -/
def portsFormat (out : PyStr) : PyStr :=
  let parts := ((String.mk out).splitOn ", ").map String.toList
  List.intercalate (S ", ") (parts.filter (fun m => !startswith m (S ":::")))

/-- Engine commands the orchestrator can issue (one constructor per
`docker` subcommand invocation site in `__main__.py`, plus the legacy
`docker image inspect` of `cli50.py`). -/
inductive Cmd where
  | info
  | psLogin
  | psStop
  | stop (id : PyStr)
  | manifestInspect (image : PyStr)
  | inspect (image : PyStr)
  | imageInspect (image : PyStr)
  | pull (image : PyStr)
  | run (argv : List PyStr)
  | execHelper (id : PyStr)
  | portsQuery (id : PyStr)
  | logs (id : PyStr)
  | attach (id : PyStr)
  | execLogin (id : PyStr)
deriving DecidableEq, Repr

/-- Prompts shown to the user.  The rendered text of the login prompt
(`inflect`/`textwrap` formatting, lines 124-131) is abstracted to the
record it describes; the claims only inspect whether a prompt occurs. -/
inductive PromptKind where
  | update (image : PyStr)
  | loginAsk (c : ContainerRec)
deriving DecidableEq, Repr

/-- Process termination: `sys.exit(n)` exits with code `n`;
`sys.exit(string)` prints the string and exits with code 1. -/
inductive ExitArg where
  | code (n : Int)
  | msg (s : PyStr)
deriving DecidableEq, Repr

/-- Observable events of one invocation.  `crash` models an uncaught
Python exception. -/
inductive Event where
  | cmd (c : Cmd)
  | prompt (k : PromptKind)
  | print (s : PyStr)
  | exit (e : ExitArg)
  | crash
deriving DecidableEq, Repr

/-- Outcome of the `docker info` availability probe
(`__main__.py` lines 81-86). -/
inductive InfoRes where
  | ok
  | err
  | timeout
deriving DecidableEq, Repr

/-- Oracle describing the engine, registry, filesystem and interactive
user for one invocation.  Each field is the result the corresponding
external call would produce. -/
structure Oracle where
  /-- `shutil.which("docker")` (line 77). -/
  dockerInstalled : Bool
  /-- `docker info` probe result (lines 81-86). -/
  info : InfoRes
  /-- stdout of the login-mode `docker ps` (lines 102-109); `none` models
  `CalledProcessError`. -/
  psLogin : Option PyStr
  /-- successive `input()` results in the login prompt loop; `none` models
  `EOFError`. -/
  responses : List (Option PyStr)
  /-- stdout of the stop-mode `docker ps` (lines 151-157); `none` models
  `CalledProcessError`. -/
  stopPs : Option PyStr
  /-- per-container success of `docker stop` (line 159). -/
  stopOk : PyStr → Bool
  /-- `os.path.realpath` (line 165). -/
  realpath : PyStr → PyStr
  /-- `os.path.isdir` (line 166). -/
  isDir : PyStr → Bool
  /-- `tzlocal.get_localzone_name()` (line 209). -/
  tz : PyStr
  /-- `os.getenv("LANG")` (line 221). -/
  lang : Option PyStr
  /-- remote manifest digests from `docker manifest inspect`
  (lines 175-179); `none` models `CalledProcessError`. -/
  remoteManifest : Option (List PyStr)
  /-- local image `Id` from `docker inspect` (lines 182-187); `none`
  models `IndexError`/`KeyError`/`CalledProcessError`. -/
  localDigest : Option PyStr
  /-- `input()` at the update prompt (line 198); `none` models
  `EOFError`. -/
  updateResponse : Option PyStr
  /-- remote manifest digests seen inside `pull` (lines 330-332). -/
  pullManifest : Option (List PyStr)
  /-- local image `Id` seen inside `pull` (lines 335-336). -/
  pullLocalId : Option PyStr
  /-- exit status of the `docker pull` issued by `subprocess.call`
  (line 344); the source discards it. -/
  pullCmdOk : Bool
  /-- success of `docker run` (lines 260-262). -/
  runOk : Bool
  /-- container id printed by `docker run`. -/
  containerId : PyStr
  /-- success of the helper `docker exec --detach` (line 267); the source
  swallows a failure. -/
  helperOk : Bool
  /-- per-container success of the `docker ps` inside `ports`
  (lines 312-317). -/
  portsOk : PyStr → Bool
  /-- per-container stdout of the `docker ps` inside `ports`. -/
  portsOut : PyStr → PyStr
  /-- success of `docker logs` (line 275). -/
  logsOk : Bool
  /-- stdout of `docker logs`. -/
  logsOut : PyStr
  /-- per-container success of the `docker exec` inside `login`
  (lines 290-305). -/
  execOk : PyStr → Bool

/-- Actions of the image freshness resolver (spec section 4.2). -/
inductive Action where
  | Skip
  | Pull
  | AskThenPull
deriving DecidableEq, Repr

/-- Image freshness decision of `__main__.py` lines 170-203: with `fast`
the whole block is skipped; without a local digest the image is pulled
(line 190); with both a local digest and a remote manifest the user is
asked when the local `Id` is not among the remote config digests
(lines 194-203); in every remaining case (notably a failed remote
lookup while a local digest exists) nothing happens. -/
def resolveAction (fast : Bool) (localDigest : Option PyStr)
    (remoteManifest : Option (List PyStr)) : Action :=
  if fast then .Skip
  else
    match localDigest with
    | none => .Pull
    | some id =>
      match remoteManifest with
      | some ds => if id ∈ ds then .Skip else .AskThenPull
      | none => .Skip

/-- Handling of the update-prompt response (`__main__.py` line 202):
pull unless the stripped, lowercased response is `n` or `no`. -/
def promptAffirmative (r : PyStr) : Bool :=
  !([S "n", S "no"].contains (pyLower (pyStrip r)))

/-- Python values occurring in the staleness assertion of `pull`
(`__main__.py` line 339). -/
inductive PyVal where
  | vList (l : List PyStr)
  | vBool (b : Bool)
deriving DecidableEq, Repr

/-- Python `==` on those values: equal lists compare equal, equal bools
compare equal, and a comparison across the two types yields `False`
(both `list.__eq__` and `bool.__eq__` return `NotImplemented`, so Python
falls back to identity, which fails). -/
def pyEq : PyVal → PyVal → Bool
  | .vList a, .vList b => a == b
  | .vBool a, .vBool b => a == b
  | _, _ => false

/-- Python `in` on a list of strings. -/
def pyIn (x : PyStr) (l : List PyStr) : Bool := l.contains x

/-- The assertion `localImageId in [...] == True` of `__main__.py`
line 339.  Python parses it as the chained comparison
`(localImageId in [...]) and ([...] == True)`. -/
def stalenessAssert (localImageId : PyStr) (digests : List PyStr) : Bool :=
  pyIn localImageId digests && pyEq (.vList digests) (.vBool true)

/-- Events of the `pull` helper (`__main__.py` lines 324-344): the remote
manifest query, then (if it succeeded) the local inspect, then the
staleness assertion; on any failure, `docker pull` via
`subprocess.call`, whose exit status is discarded.  The helper never
exits the process. -/
def pullEvents (image : PyStr) (o : Oracle) : List Event :=
  Event.cmd (.manifestInspect image) ::
    match o.pullManifest with
    | none => [Event.cmd (.pull image)]
    | some ds =>
      Event.cmd (.inspect image) ::
        match o.pullLocalId with
        | none => [Event.cmd (.pull image)]
        | some id =>
          if stalenessAssert id ds then [] else [Event.cmd (.pull image)]

/-- Events of the freshness-check block of `main` (`__main__.py`
lines 170-203), phrased through `resolveAction`. -/
def freshnessEvents (fast : Bool) (tag : PyStr) (o : Oracle) : List Event :=
  if fast then []
  else
    Event.cmd (.manifestInspect (imageTag tag)) ::
      Event.cmd (.inspect (imageTag tag)) ::
        match resolveAction false o.localDigest o.remoteManifest with
        | .Skip => []
        | .Pull => pullEvents (imageTag tag) o
        | .AskThenPull =>
          Event.prompt (.update (imageTag tag)) ::
            match o.updateResponse with
            | none => []
            | some r =>
              if promptAffirmative r then pullEvents (imageTag tag) o else []

/-- Error kinds of the dotfile validation (`__main__.py` lines 236-246):
`outsideHome` for an absolute path not under `$HOME` (line 238),
`notFound` for a nonexistent resolved path (line 244), `notADotfile`
for a home-relative name not starting with `.` (line 246). -/
inductive DotfileError where
  | outsideHome
  | notFound
  | notADotfile
deriving DecidableEq, Repr

/-- Marker `os.path.join("~", "")` of `__main__.py` line 239. -/
def tildeSlash : PyStr := S "~/"

/-- Python `os.path.expanduser` on a path starting with `~/`, phrased
through the slash-terminated `home` of `__main__.py` line 233: the
home directory without its trailing separator, followed by the path
with the `~` removed. -/
def expanduser (home p : PyStr) : PyStr := home.dropLast ++ p.drop 1

/-- Resolution performed by the dotfile loop (`__main__.py`
lines 239-242) on an entry that is not rejected as outside `$HOME`:
a `~/` entry is expanded against home, anything else is joined to the
slash-terminated home (an absolute path is returned unchanged by
`os.path.join`). -/
def resolvePath (home p : PyStr) : PyStr :=
  if startswith p tildeSlash then expanduser home p else pyJoin home p

/-- Validation of one dotfile entry (`__main__.py` lines 236-247).
`home` is the slash-terminated home directory, `fs` the filesystem
existence predicate (`os.path.exists`).  The error carries the path the
source interpolates into the message: the original entry for
`outsideHome`, the resolved path otherwise. -/
def resolveDotfile (home : PyStr) (fs : PyStr → Bool) (dotfile : PyStr) :
    Except (DotfileError × PyStr) PyStr :=
  if startswith dotfile (S "/") && !startswith dotfile home then
    .error (.outsideHome, dotfile)
  else
    let d := resolvePath home dotfile
    if !fs d then .error (.notFound, d)
    else if !startswith (d.drop home.length) (S ".") then
      .error (.notADotfile, d)
    else .ok d

/-- Volume option built for one accepted dotfile
(`__main__.py` line 247). -/
def dotfileVolume (home d : PyStr) : List PyStr :=
  [S "--volume", d ++ S ":/home/ubuntu/" ++ d.drop home.length ++ S ":ro"]

/-- The dotfile loop over all entries (`__main__.py` lines 236-247):
entries are processed in input order and the first violation stops the
loop (its `sys.exit`). -/
def validateDotfiles (home : PyStr) (fs : PyStr → Bool) :
    List PyStr → Except (DotfileError × PyStr) (List PyStr)
  | [] => .ok []
  | d :: ds =>
    match resolveDotfile home fs d with
    | .error e => .error e
    | .ok q =>
      match validateDotfiles home fs ds with
      | .error e => .error e
      | .ok opts => .ok (dotfileVolume home q ++ opts)

/-- Exit message for a rejected dotfile (`__main__.py` lines 238, 244,
246). -/
def dotfileErrMsg : DotfileError × PyStr → PyStr
  | (.outsideHome, p) => p ++ S ": not in your $HOME"
  | (.notFound, p) => p ++ S ": No such file or directory"
  | (.notADotfile, p) => p ++ S ": Not a dotfile"

/-- Default-port substitution of `__main__.py` lines 225-226. -/
def effectivePorts (ports : List Int) : List Int :=
  if ports = [] then PORTS else ports

/-- Port validation loop of `__main__.py` lines 227-230: the first port
outside `[1024, 65535]` aborts with that value; otherwise each port
contributes an `--expose` option. -/
def validatePorts : List Int → Except Int (List PyStr)
  | [] => .ok []
  | p :: ps =>
    if p < 1024 || p > 65535 then .error p
    else
      match validatePorts ps with
      | .error q => .error q
      | .ok opts => .ok ([S "--expose", intStr p] ++ opts)

/-- Fixed options of the `docker run` invocation (`__main__.py`
lines 205-222): detach/interactive/tty, environment, label, seccomp
relaxation, workspace and engine-socket volumes, working directory, and
the `LANG` passthrough. -/
def baseOptions (directory : PyStr) (tz : PyStr) (lang : Option PyStr) :
    List PyStr :=
  [S "--detach",
   S "--env", S "LOCAL_WORKSPACE_FOLDER=" ++ directory,
   S "--env", S "TZ=" ++ tz,
   S "--env", S "WORKDIR=/mnt",
   S "--interactive",
   S "--label", LABEL,
   S "--rm",
   S "--security-opt", S "seccomp=unconfined",
   S "--tty",
   S "--volume", directory ++ S ":/mnt",
   S "--volume", S "/var/run/docker.sock:/var/run/docker-host.sock",
   S "--workdir", S "/mnt"] ++
  (match lang with
   | some l => [S "--env", S "LANG=" ++ l]
   | none => [])

/-- Container command (`__main__.py` lines 250-254): `bash --login`,
extended for Jekyll serving. -/
def containerCmd (jekyll : Bool) : List PyStr :=
  [S "bash", S "--login"] ++
  (if jekyll then
    [S "-c",
     S "bundle install && bundle exec jekyll serve --host 0.0.0.0 --port 8080"]
   else [])

/-- Events of the container-creation block (`__main__.py` lines 256-281):
one `docker run` with `--publish-all` appended to the options; on
success the helper `docker exec` (its failure swallowed, lines 266-269),
the port-mapping listing, the logs, the attach, and exit 0; a
`CalledProcessError` anywhere in the `try` block exits 1. -/
def runEvents (options : List PyStr) (image : PyStr) (cmd : List PyStr)
    (o : Oracle) : List Event :=
  Event.cmd (.run (options ++ [S "--publish-all"] ++ [image] ++ cmd)) ::
    if o.runOk then
      Event.cmd (.execHelper o.containerId) ::
        Event.cmd (.portsQuery o.containerId) ::
          if o.portsOk o.containerId then
            Event.print (portsFormat (o.portsOut o.containerId)) ::
              Event.cmd (.logs o.containerId) ::
                if o.logsOk then
                  [Event.print o.logsOut,
                   Event.cmd (.attach o.containerId),
                   Event.exit (.code 0)]
                else [Event.exit (.code 1)]
          else [Event.exit (.code 1)]
    else [Event.exit (.code 1)]

/-- Launch phase of `main` after the freshness check (`__main__.py`
lines 205-281): build options, validate ports then dotfiles (each
`sys.exit`s on its first violation), then create the container. -/
def launchPhase (home : PyStr) (fs : PyStr → Bool) (directory : PyStr)
    (tag : PyStr) (ports : List Int) (dotfiles : List PyStr) (jekyll : Bool)
    (o : Oracle) : List Event :=
  match validatePorts (effectivePorts ports) with
  | .error p => [Event.exit (.msg (S "Invalid port: " ++ intStr p))]
  | .ok exposeOpts =>
    match validateDotfiles home fs dotfiles with
    | .error e => [Event.exit (.msg (dotfileErrMsg e))]
    | .ok volOpts =>
      runEvents (baseOptions directory o.tz o.lang ++ exposeOpts ++ volOpts)
        (imageTag tag) (containerCmd jekyll) o

/-- Python regex `^\s*(?:y|yes)?\s*$` with `re.I` (`__main__.py`
line 136): blank, `y` or `yes`, surrounded by whitespace, any case. -/
def isYes (s : PyStr) : Bool :=
  let t := pyLower (pyStrip s)
  t == [] || t == S "y" || t == S "yes"

/-- Events of one accepted login target (`__main__.py` lines 137-143 and
92-99): print the port mappings, then `login`; any failure hits the
bare `except` and exits 1, success exits 0. -/
def loginAttempt (id : PyStr) (o : Oracle) : List Event :=
  Event.cmd (.portsQuery id) ::
    if o.portsOk id then
      [Event.print (portsFormat (o.portsOut id)),
       Event.cmd (.execLogin id),
       if o.execOk id then Event.exit (.code 0) else Event.exit (.code 1)]
    else [Event.exit (.code 1)]

/-- The login prompt loop (`__main__.py` lines 124-147).  Every branch of
the inner `while True` either exits or breaks, so each container is
prompted for at most once; `EOFError` or a negative response moves on
to the next container, and exhausting the list exits 0 (the `for`-`else`
at line 146). -/
def promptLoop (o : Oracle) :
    List ContainerRec → List (Option PyStr) → List Event
  | [], _ => [Event.exit (.code 0)]
  | c :: rest, rs =>
    Event.prompt (.loginAsk c) ::
      match rs.headD none with
      | none => promptLoop o rest rs.tail
      | some s =>
        if isYes s then loginAttempt c.id o else promptLoop o rest rs.tail

/-- Events of interactive login mode (`__main__.py` lines 101-147): the
running-container listing, its parse (an unparsable line is an uncaught
exception), the empty-list exit, and the prompt loop. -/
def loginList (o : Oracle) : List Event :=
  Event.cmd .psLogin ::
    match o.psLogin with
    | none => [Event.exit (.code 1)]
    | some out =>
      match parseContainers out with
      | .error _ => [Event.crash]
      | .ok [] => [Event.exit (.msg (S "No containers are running."))]
      | .ok cs => promptLoop o cs o.responses

/-- Events of stop mode (`__main__.py` lines 150-162). -/
def stopLoop (o : Oracle) : List PyStr → List Event
  | [] => [Event.exit (.code 0)]
  | id :: rest =>
    Event.cmd (.stop id) ::
      if o.stopOk id then stopLoop o rest else [Event.exit (.code 1)]

/-- Stop mode (`__main__.py` lines 150-162): list labelled containers,
stop each, exit 0; any `CalledProcessError` exits 1. -/
def stopEvents (o : Oracle) : List Event :=
  Event.cmd .psStop ::
    match o.stopPs with
    | none => [Event.exit (.code 1)]
    | some out => stopLoop o (splitlines (pyRstrip out))

/-- Arguments of one invocation as parsed by the (out-of-scope) CLI
layer (`__main__.py` lines 46-57).  `login = some none` is `-l` without
a container, `login = some (some c)` is `-l c`. -/
structure Args where
  dotfile : List PyStr
  fast : Bool
  jekyll : Bool
  login : Option (Option PyStr)
  port : List Int
  stop : Bool
  tag : PyStr
  directory : PyStr

/-- Events of one full invocation of `main` (`__main__.py` lines 76-281),
from the Docker-availability probe on.  The PyPI self-update check
(lines 59-74) belongs to the excluded packaging/versioning concern of
spec section 1 and is not modelled.  `parser.error` exits with the
argparse code 2. -/
def mainTrace (home : PyStr) (fs : PyStr → Bool) (a : Args) (o : Oracle) :
    List Event :=
  if !o.dockerInstalled then [Event.exit (.code 2)]
  else
    match o.info with
    | .err => [Event.cmd .info, Event.exit (.msg (S "Docker not running."))]
    | .timeout =>
      [Event.cmd .info, Event.exit (.msg (S "Docker not responding."))]
    | .ok =>
      Event.cmd .info ::
        match a.login with
        | some (some c) => loginAttempt c o
        | some none => loginList o
        | none =>
          if a.stop then stopEvents o
          else if !o.isDir (o.realpath a.directory) then
            [Event.exit (.code 2)]
          else
            freshnessEvents a.fast a.tag o ++
              launchPhase home fs (o.realpath a.directory) a.tag a.port
                a.dotfile a.jekyll o

/-- Image update block of the legacy variant (`cli50.py` lines 140-148):
`docker image inspect`, then `assert args["fast"]`; an inspect failure
or an unset `fast` flag falls into the `except`, which runs
`docker pull` via `check_call` and exits 1 when the pull fails. -/
def legacyUpdateEvents (image : PyStr) (localOk fast pullOk : Bool) :
    List Event :=
  Event.cmd (.imageInspect image) ::
    if localOk && fast then []
    else
      Event.cmd (.pull image) ::
        if pullOk then [] else [Event.exit (.code 1)]

/-- Lifecycle phases of one invocation at which a SIGINT can arrive.
`importing` is the time between module import (`__main__.py` line 4)
and the start of `main`; the remaining phases all lie after `main`
installs its handler (`__main__.py` line 43); a container exists only
from `containerRunning` on. -/
inductive Phase where
  | importing
  | argParse
  | freshnessCheck
  | validation
  | containerRunning
  | attached
deriving DecidableEq, Repr

/-- Whether a container exists at a phase. -/
def containerExists : Phase → Bool
  | .containerRunning => true
  | .attached => true
  | _ => false

/-- Exit code produced by the SIGINT handler active at each phase: the
module-level lambda (`__main__.py` line 4) exits 1; `handler`
(`__main__.py` lines 284-287), installed on the first line of `main`
(line 43), prints a newline and exits 0. -/
def sigintExitCode : Phase → Int
  | .importing => 1
  | _ => 0

/-- Concrete oracle used to evaluate the model on explicit inputs:
Docker installed and running, a healthy engine, no local image, an
unreachable registry, and a user who answers nothing. -/
def O0 : Oracle where
  dockerInstalled := true
  info := .ok
  psLogin := some []
  responses := []
  stopPs := some []
  stopOk := fun _ => true
  realpath := fun p => p
  isDir := fun _ => true
  tz := S "Etc/UTC"
  lang := none
  remoteManifest := none
  localDigest := none
  updateResponse := none
  pullManifest := none
  pullLocalId := none
  pullCmdOk := true
  runOk := true
  containerId := S "c0ffee"
  helperOk := true
  portsOk := fun _ => true
  portsOut := fun _ => []
  logsOk := true
  logsOut := []
  execOk := fun _ => true

/-- Concrete arguments used to evaluate the model on explicit inputs:
a plain `cli50` run in `/tmp/proj` with defaults. -/
def A0 : Args where
  dotfile := []
  fast := true
  jekyll := false
  login := none
  port := []
  stop := false
  tag := TAG
  directory := S "/tmp/proj"

/-- Concrete filesystem with exactly one dotfile. -/
def FS0 : PyStr → Bool := fun s => s == S "/home/u/.bashrc"

/-- Whether an event is an engine command. -/
def isCmdEvent : Event → Bool
  | .cmd _ => true
  | _ => false

/-- Whether an event is a process exit. -/
def isExitEvent : Event → Bool
  | .exit _ => true
  | _ => false

/-- Whether an event is a user prompt. -/
def isPromptEvent : Event → Bool
  | .prompt _ => true
  | _ => false

/-- Whether an event is the helper `docker exec --detach` attempt. -/
def isHelperEvent : Event → Bool
  | .cmd (.execHelper _) => true
  | _ => false

/-- Argument vectors of the `docker run` commands occurring in a trace. -/
def runArgvs (tr : List Event) : List (List PyStr) :=
  tr.filterMap fun e =>
    match e with
    | .cmd (.run a) => some a
    | _ => none

/-- C10: the staleness assertion `localImageId in [...] == True` of the
pull helper is a chained comparison that always evaluates to false (the
digest list never equals the boolean `True`), so `pull(image, tag)`
unconditionally issues an engine pull command, even when the local image
id matches a remote manifest digest. -/
theorem claim_C10_staleness_assert_always_pulls :
    (∀ id ds, stalenessAssert id ds = false) ∧
    (∀ image o, Event.cmd (Cmd.pull image) ∈ pullEvents image o) := by
  refine ⟨fun id ds => by simp [stalenessAssert, pyEq], fun image o => ?_⟩
  unfold pullEvents
  cases o.pullManifest with
  | none => simp
  | some ds =>
    cases o.pullLocalId with
    | none => simp
    | some id => simp [stalenessAssert, pyEq]

/-- C8, counterexample: at the validation phase no container exists, yet
the active SIGINT handler (installed on the first line of `main`) exits
with code 0, contradicting the claim that an interrupt before a
container exists aborts with a non-zero code. -/
theorem claim_C8_counterexample :
    containerExists Phase.validation = false ∧
    sigintExitCode Phase.validation = 0 := by decide

/-- C8, amended: an interrupt during module import (the only period in
which the module-level handler is active) exits with code 1; an
interrupt at any phase after `main` installs its handler — including
phases before any container exists — exits with code 0, and in
particular an interrupt during an active attach exits with code 0. -/
theorem claim_C8_sigint_phases :
    sigintExitCode Phase.importing = 1 ∧
    (∀ p, p ≠ Phase.importing → sigintExitCode p = 0) ∧
    sigintExitCode Phase.attached = 0 := by
  refine ⟨rfl, fun p hp => ?_, rfl⟩
  cases p <;> simp_all [sigintExitCode]

/-- Witness for the amended C8 at the attach phase. -/
theorem claim_C8_sigint_phases_witness :
    Phase.attached ≠ Phase.importing ∧ sigintExitCode Phase.attached = 0 :=
  ⟨by decide, claim_C8_sigint_phases.2.1 Phase.attached (by decide)⟩

/-- C1, counterexample: with `fast` unset, a local digest present and the
remote manifest lookup unavailable, the resolver of
`__main__.py` lines 170-203 does nothing (`Skip`); the claim demands
`Pull` or `AskThenPull` in that combination. -/
theorem claim_C1_counterexample :
    resolveAction false (some (S "a")) none = Action.Skip ∧
    Action.Skip ≠ Action.Pull ∧ Action.Skip ≠ Action.AskThenPull := by
  decide

/-- C1, amended: with `fast` set the resolver always returns `Skip`;
with `fast` unset it returns `Pull` when no local digest exists,
`Skip` when the remote manifest is unavailable while a local digest
exists, and — when both are available — `Skip` exactly when the local id
is among the remote digests and `AskThenPull` otherwise; at the prompt a
blank response counts as affirmative and triggers the pull. -/
theorem claim_C1_freshness_resolver :
    (∀ l r, resolveAction true l r = Action.Skip) ∧
    (∀ r, resolveAction false none r = Action.Pull) ∧
    (∀ id, resolveAction false (some id) none = Action.Skip) ∧
    (∀ id ds, resolveAction false (some id) (some ds) =
      if id ∈ ds then Action.Skip else Action.AskThenPull) ∧
    promptAffirmative [] = true := by
  refine ⟨fun l r => rfl, fun r => rfl, fun id => rfl, fun id ds => rfl, rfl⟩

/-- C5, counterexample: in the legacy variant (`cli50.py` lines 140-148)
with a local image present, `fast` unset and a failing pull, the run
aborts with exit code 1 instead of proceeding with the image already
present. -/
theorem claim_C5_counterexample :
    legacyUpdateEvents IMAGE true false false =
      [Event.cmd (.imageInspect IMAGE), Event.cmd (.pull IMAGE),
       Event.exit (.code 1)] ∧
    Event.exit (.code 1) ∈ legacyUpdateEvents IMAGE true false false := by
  decide

/-- C5, amended: in the package variant a failing pull never aborts the
run — the `pull` helper only ever issues engine commands, discards the
exit status of its `docker pull`, and the orchestrator proceeds, failing
only at container-create time (exit 1 after the `docker run`) when no
image exists; in the legacy variant, by contrast, a failing pull aborts
with exit code 1. -/
theorem claim_C5_pull_failure :
    (∀ image o, (pullEvents image o).all isCmdEvent = true) ∧
    (∀ (image : PyStr) (o : Oracle) (b : Bool),
      pullEvents image { o with pullCmdOk := b } = pullEvents image o) ∧
    (∀ (options : List PyStr) (image : PyStr) (cmd : List PyStr) (o : Oracle),
      runEvents options image cmd { o with runOk := false } =
        [Event.cmd (.run (options ++ [S "--publish-all"] ++ [image] ++ cmd)),
         Event.exit (.code 1)]) ∧
    (∀ image localOk,
      legacyUpdateEvents image localOk false false =
        [Event.cmd (.imageInspect image), Event.cmd (.pull image),
         Event.exit (.code 1)]) := by
  refine ⟨fun image o => ?_, fun image o b => rfl,
    fun options image cmd o => rfl, fun image localOk => ?_⟩
  · unfold pullEvents
    cases o.pullManifest with
    | none => simp [isCmdEvent]
    | some ds =>
      cases o.pullLocalId with
      | none => simp [isCmdEvent]
      | some id => cases h : stalenessAssert id ds <;> simp [h, isCmdEvent]
  · unfold legacyUpdateEvents
    simp

/-- C6: container discovery splits the raw mounts field on commas, strips
every token matching the 64-hex-digit pattern, and normalizes the
`/host_mnt` prefix of the remaining tokens — so a mounts field of the
form `64 hex chars,/home/user/.gitconfig` displays only
`/home/user/.gitconfig`, and a `/host_mnt`-prefixed path is
normalized. -/
theorem claim_C6_mounts_parsing :
    (∀ raw m, m ∈ parseMounts raw ↔
      ∃ t, t ∈ splitOnChar ',' raw ∧ hex64 t = false ∧ m = subHostMnt t) ∧
    parseMounts
      (S "0123456789abcdef0123456789abcdef0123456789abcdef0123456789abcdef,/home/user/.gitconfig") =
      [S "/home/user/.gitconfig"] ∧
    parseMounts (S "/host_mnt/home/user/.gitconfig") =
      [S "/home/user/.gitconfig"] := by
  refine ⟨fun raw m => ?_, by decide, by decide⟩
  simp only [parseMounts, List.mem_map, List.mem_filter, Bool.not_eq_eq_eq_not,
    Bool.not_true]
  constructor
  · rintro ⟨t, ⟨ht, hhex⟩, hm⟩
    exact ⟨t, ht, hhex, hm.symm⟩
  · rintro ⟨t, ht, hhex, hm⟩
    exact ⟨t, ⟨ht, hhex⟩, hm.symm⟩

/-- C9: on a successful `docker run` the launcher makes exactly one
attempt to start the nested privileged helper (none when the run
fails), and the outcome of that attempt changes nothing: the trace of
events is identical whether the helper start succeeds or fails, so the
launch result and exit code are unaffected. -/
theorem claim_C9_helper_best_effort :
    ∀ (options : List PyStr) (image : PyStr) (cmd : List PyStr) (o : Oracle),
      ((runEvents options image cmd { o with runOk := true }).filter
        isHelperEvent).length = 1 ∧
      ((runEvents options image cmd { o with runOk := false }).filter
        isHelperEvent).length = 0 ∧
      (∀ b, runEvents options image cmd { o with helperOk := b } =
        runEvents options image cmd o) := by
  intro options image cmd o
  refine ⟨?_, rfl, fun b => rfl⟩
  show (List.filter isHelperEvent
    (Event.cmd (.run _) ::
      Event.cmd (.execHelper o.containerId) ::
        Event.cmd (.portsQuery o.containerId) :: _)).length = 1
  cases h : o.portsOk o.containerId <;> cases h2 : o.logsOk <;>
    simp [isHelperEvent, h, h2]

/-- C3, counterexample: on a concrete default launch whose single
`docker run` fails, the trace contains exactly one run command, that
command publishes all exposed ports to random host ports
(`--publish-all`) and contains no fixed host-port binding (`--publish`),
and the failure is fatal: the trace ends with exit code 1 and no second
run is attempted.  This contradicts the claim that the launcher first
attempts explicit fixed host-port bindings and retries with publish-all
only on failure, never treating the first failure as fatal. -/
theorem claim_C3_counterexample :
    (runArgvs (mainTrace (S "/home/u/") FS0 A0
      { O0 with runOk := false })).length = 1 ∧
    (runArgvs (mainTrace (S "/home/u/") FS0 A0
      { O0 with runOk := false })).all
        (fun a => (S "--publish-all" ∈ a) && !(S "--publish" ∈ a)) = true ∧
    (mainTrace (S "/home/u/") FS0 A0 { O0 with runOk := false }).getLast? =
      some (Event.exit (.code 1)) := by decide

/-- C3, amended: every launch makes exactly one `docker run` attempt,
whose argument vector is the configured options followed by
`--publish-all` (publish all exposed ports to random host ports), the
image and the command; there is no fixed-host-port first strategy and no
retry, and a failure of the single attempt is fatal (exit code 1). -/
theorem claim_C3_port_publishing :
    ∀ (options : List PyStr) (image : PyStr) (cmd : List PyStr) (o : Oracle),
      runArgvs (runEvents options image cmd o) =
        [options ++ [S "--publish-all"] ++ [image] ++ cmd] ∧
      S "--publish-all" ∈ options ++ [S "--publish-all"] ++ [image] ++ cmd ∧
      runEvents options image cmd { o with runOk := false } =
        [Event.cmd (.run (options ++ [S "--publish-all"] ++ [image] ++ cmd)),
         Event.exit (.code 1)] := by
  intro options image cmd o
  refine ⟨?_, by simp, rfl⟩
  unfold runEvents runArgvs
  cases h : o.runOk <;> cases h2 : o.portsOk o.containerId <;>
    cases h3 : o.logsOk <;> simp [h, h2, h3]

/-- Listing line of one unrelated running container (image `nginx`, not
created by this tool): the login-mode `docker ps` of `__main__.py`
lines 102-109 filters only on running status, never on the `cli50`
label, so such a container appears in the listing. -/
def loginOut7 : PyStr := S "abc\tnginx\t2 hours ago\tUp 2 hours"

/-- Parsed record of that unrelated container. -/
def rec7 : ContainerRec :=
  ⟨S "abc", S "nginx", S "2 hours ago", S "up 2 hours", []⟩

/-- Oracle for a login invocation in which the only running container is
the unrelated one and the user answers nothing (EOF). -/
def O7 : Oracle := { O0 with psLogin := some loginOut7, responses := [none] }

/-- C7, counterexample: in login mode with zero running containers
matching the label but one unrelated running container, the unfiltered
listing is nonempty, so the flow shows a prompt (for the unrelated
`nginx` container) and never exits reporting that no containers are
running — contradicting the claim that zero label-matching containers
suffice for the no-containers exit with no prompt. -/
theorem claim_C7_counterexample :
    parseContainers loginOut7 = Except.ok [rec7] ∧
    rec7.image = S "nginx" ∧
    ((loginList O7).filter isPromptEvent).length = 1 ∧
    Event.exit (.msg (S "No containers are running.")) ∉ loginList O7 :=
  ⟨rfl, rfl, by decide, by decide⟩

/-- C7, amended: the login-mode listing is unfiltered by label, so the
no-containers exit is governed by the whole listing: with an empty
listing the process exits reporting that no containers are running and
shows no prompt, while any running container in the listing — created
by this tool or not — is prompted for; the discovery parse itself never
raises on an empty listing — it returns the empty record list, and
treating emptiness as an error is the decision of the login caller. -/
theorem claim_C7_login_listing :
    (∀ o : Oracle, loginList { o with psLogin := some [] } =
      [Event.cmd .psLogin,
       Event.exit (.msg (S "No containers are running."))]) ∧
    (∀ o : Oracle, ((loginList { o with psLogin := some [] }).filter
      isPromptEvent).length = 0) ∧
    parseContainers [] = Except.ok [] ∧
    (∀ out, pyRstrip out = [] → parseContainers out = Except.ok []) ∧
    (∀ (o : Oracle) (out : PyStr) (c : ContainerRec) (cs : List ContainerRec),
      o.psLogin = some out → parseContainers out = Except.ok (c :: cs) →
      ∃ rest, loginList o =
        Event.cmd .psLogin :: Event.prompt (.loginAsk c) :: rest) := by
  refine ⟨fun o => rfl, fun o => rfl, rfl, fun out h => ?_,
    fun o out c cs hps hparse => ?_⟩
  · unfold parseContainers splitlines
    rw [h]
    rfl
  · simp only [loginList, hps]
    simp only [hparse]
    exact ⟨_, rfl⟩

/-- Witness for the amended C7: a whitespace-only listing parses to the
empty record list, and the concrete one-container listing makes the
flow prompt for that container. -/
theorem claim_C7_login_listing_witness :
    (pyRstrip (S "\n") = [] ∧ parseContainers (S "\n") = Except.ok []) ∧
    (∃ rest, loginList O7 =
      Event.cmd .psLogin :: Event.prompt (.loginAsk rec7) :: rest) :=
  ⟨⟨by decide, claim_C7_login_listing.2.2.2.1 (S "\n") (by decide)⟩,
    claim_C7_login_listing.2.2.2.2 O7 loginOut7 rec7 [] rfl rfl⟩

/-- Traces are run-free under concatenation componentwise. -/
theorem runArgvs_append (a b : List Event) :
    runArgvs (a ++ b) = runArgvs a ++ runArgvs b :=
  List.filterMap_append a b _

/-- The pull helper issues no `docker run`. -/
theorem runArgvs_pullEvents (image : PyStr) (o : Oracle) :
    runArgvs (pullEvents image o) = [] := by
  unfold pullEvents
  cases o.pullManifest with
  | none => simp [runArgvs]
  | some ds =>
    cases o.pullLocalId with
    | none => simp [runArgvs]
    | some id => cases h : stalenessAssert id ds <;> simp [h, runArgvs]

/-- The freshness-check block issues no `docker run`. -/
theorem runArgvs_freshness (fast : Bool) (tag : PyStr) (o : Oracle) :
    runArgvs (freshnessEvents fast tag o) = [] := by
  unfold freshnessEvents
  cases fast with
  | true => simp [runArgvs]
  | false =>
    cases hr : resolveAction false o.localDigest o.remoteManifest with
    | Skip => simp [hr, runArgvs]
    | Pull =>
      simp only [hr, Bool.false_eq_true, if_false]
      simpa [runArgvs] using runArgvs_pullEvents (imageTag tag) o
    | AskThenPull =>
      simp only [hr, Bool.false_eq_true, if_false]
      cases o.updateResponse with
      | none => simp [runArgvs]
      | some r =>
        cases h : promptAffirmative r with
        | true =>
          simpa [runArgvs, h] using runArgvs_pullEvents (imageTag tag) o
        | false => simp [runArgvs, h]

/-- C4, counterexample: with the single invalid port 80 the run is
rejected with the offending value, but the `docker info` probe — an
engine command — has already been issued before the rejection, so the
rejection does not happen before any engine command is invoked. -/
theorem claim_C4_counterexample :
    mainTrace (S "/home/u/") FS0 { A0 with port := [80] } O0 =
      [Event.cmd .info, Event.exit (.msg (S "Invalid port: 80"))] ∧
    ((mainTrace (S "/home/u/") FS0 { A0 with port := [80] } O0).takeWhile
      (fun e => !isExitEvent e)).all (fun e => !isCmdEvent e) = false := by
  decide

/-- C4, amended: port validation rejects exactly the first supplied port
outside `[1024, 65535]` (all earlier ports being in range), the
boundary values 1024 and 65535 pass, an empty port list is replaced by
the default set `[5000, 8080]`, and on a rejected port the invocation
exits with the offending value before the container run command — the
`docker run` — is issued (the availability probe and the freshness-check
commands may already have run). -/
theorem claim_C4_port_validation :
    (∀ (ps : List Int) (p : Int), validatePorts ps = .error p ↔
      ∃ pre post, ps = pre ++ p :: post ∧
        (∀ q ∈ pre, 1024 ≤ q ∧ q ≤ 65535) ∧ (p < 1024 ∨ p > 65535)) ∧
    validatePorts [1024, 65535] =
      .ok [S "--expose", S "1024", S "--expose", S "65535"] ∧
    effectivePorts [] = [5000, 8080] ∧
    (∀ (home : PyStr) (fs : PyStr → Bool) (a : Args) (o : Oracle) (p : Int),
      a.login = none → a.stop = false → o.dockerInstalled = true →
      o.info = .ok → o.isDir (o.realpath a.directory) = true →
      validatePorts (effectivePorts a.port) = .error p →
      mainTrace home fs a o =
        Event.cmd .info ::
          (freshnessEvents a.fast a.tag o ++
            [Event.exit (.msg (S "Invalid port: " ++ intStr p))]) ∧
      runArgvs (mainTrace home fs a o) = []) := by
  refine ⟨?_, rfl, rfl, ?_⟩
  · intro ps p
    induction ps with
    | nil =>
      simp only [validatePorts]
      constructor
      · intro h
        exact absurd h (by simp)
      · rintro ⟨pre, post, hps, -, -⟩
        exact absurd hps (by simp)
    | cons q qs ih =>
      by_cases hq : q < 1024 ∨ q > 65535
      · have hcond : (decide (q < 1024) || decide (q > 65535)) = true := by
          rcases hq with h | h <;> simp [h]
        constructor
        · intro h
          have : q = p := by
            simp only [validatePorts, hcond, if_true] at h
            exact (Except.error.injEq _ _).mp h
          subst this
          exact ⟨[], qs, rfl, by simp, hq⟩
        · rintro ⟨pre, post, hps, hpre, hp⟩
          cases pre with
          | nil =>
            simp only [List.nil_append, List.cons.injEq] at hps
            obtain ⟨rfl, rfl⟩ := hps
            simp [validatePorts, hcond]
          | cons x pre =>
            simp only [List.cons_append, List.cons.injEq] at hps
            have hxq := hpre x (by simp)
            obtain ⟨rfl, rfl⟩ := hps
            omega
      · have hcond : (decide (q < 1024) || decide (q > 65535)) = false := by
          push_neg at hq
          simp
          omega
        have hqr : 1024 ≤ q ∧ q ≤ 65535 := by push_neg at hq; omega
        constructor
        · intro h
          simp only [validatePorts, hcond, Bool.false_eq_true, if_false] at h
          cases hrec : validatePorts qs with
          | error r =>
            rw [hrec] at h
            simp only at h
            have : r = p := (Except.error.injEq _ _).mp h
            subst this
            obtain ⟨pre, post, hps, hpre, hp⟩ := ih.mp hrec
            refine ⟨q :: pre, post, by rw [hps]; rfl, ?_, hp⟩
            intro x hx
            rcases List.mem_cons.mp hx with rfl | hx
            · exact hqr
            · exact hpre x hx
          | ok opts =>
            rw [hrec] at h
            simp at h
        · rintro ⟨pre, post, hps, hpre, hp⟩
          cases pre with
          | nil =>
            simp only [List.nil_append, List.cons.injEq] at hps
            rw [hps.1] at hq
            exact absurd hp hq
          | cons x pre =>
            simp only [List.cons_append, List.cons.injEq] at hps
            have hrec : validatePorts qs = .error p := by
              refine ih.mpr ⟨pre, post, hps.2, ?_, hp⟩
              intro y hy
              exact hpre y (by simp [hy])
            simp [validatePorts, hcond, hrec]
  · intro home fs a o p hlogin hstop hinst hinfo hdir hports
    have hmain : mainTrace home fs a o =
        Event.cmd .info ::
          (freshnessEvents a.fast a.tag o ++
            [Event.exit (.msg (S "Invalid port: " ++ intStr p))]) := by
      unfold mainTrace
      rw [hinst, hinfo, hlogin, hstop, hdir]
      simp only [Bool.not_true, Bool.false_eq_true, if_false]
      unfold launchPhase
      rw [hports]
    refine ⟨hmain, ?_⟩
    rw [hmain]
    show runArgvs ([Event.cmd .info] ++
      (freshnessEvents a.fast a.tag o ++ [Event.exit _])) = []
    rw [runArgvs_append, runArgvs_append, runArgvs_freshness]
    rfl

/-- Witness for the amended C4: a run supplying only the port 80 exits
with that value and issues no container run command. -/
theorem claim_C4_port_validation_witness :
    mainTrace (S "/home/u/") FS0 { A0 with port := [80] } O0 =
      Event.cmd .info ::
        (freshnessEvents true TAG O0 ++
          [Event.exit (.msg (S "Invalid port: " ++ intStr 80))]) ∧
    runArgvs (mainTrace (S "/home/u/") FS0 { A0 with port := [80] } O0) = [] :=
  claim_C4_port_validation.2.2.2 (S "/home/u/") FS0
    { A0 with port := [80] } O0 80 rfl rfl rfl rfl rfl rfl

/-- A string starts with itself followed by anything. -/
theorem startswith_append (l r : PyStr) : startswith (l ++ r) l = true := by
  unfold startswith
  rw [ List.isPrefixOf_iff_prefix]
  exact List.prefix_append l r

/-- Destructuring a verified Python `startswith`. -/
theorem startswith_ex {s p : PyStr} (h : startswith s p = true) :
    ∃ t, s = p ++ t := by
  unfold startswith at h
  rw [ List.isPrefixOf_iff_prefix] at h
  obtain ⟨t, ht⟩ := h
  exact ⟨t, ht.symm⟩

/-- A slash-terminated home splits into its body and the slash. -/
theorem home_split {home : PyStr} (h : home.getLast? = some '/') :
    home.dropLast ++ ['/'] = home := by
  have hne : home ≠ [] := by
    intro he
    subst he
    simp at h
  have h2 : home.getLast hne = '/' := by
    rw [List.getLast?_eq_getLast home hne] at h
    exact (Option.some.injEq _ _).mp h
  rw [← h2]
  exact List.dropLast_append_getLast hne

/-- An absolute path does not carry the home-alias marker. -/
theorem abs_not_tilde {P : PyStr} (h : startswith P (S "/") = true) :
    startswith P tildeSlash = false := by
  obtain ⟨t, rfl⟩ := startswith_ex h
  rfl

/-- Resolution keeps an entry that is not rejected as outside `$HOME`
under a slash-terminated home. -/
theorem resolvePath_under {home : PyStr} (hh : home.getLast? = some '/')
    (P : PyStr)
    (hno : (startswith P (S "/") && !startswith P home) = false) :
    startswith (resolvePath home P) home = true := by
  have hne : home ≠ [] := by
    intro he
    subst he
    simp at hh
  cases ht : startswith P tildeSlash with
  | true =>
    obtain ⟨t, rfl⟩ := startswith_ex ht
    have hc : startswith (tildeSlash ++ t) tildeSlash = true :=
      startswith_append tildeSlash t
    have hdrop : (tildeSlash ++ t).drop 1 = '/' :: t := rfl
    have hres : resolvePath home (tildeSlash ++ t) =
        home.dropLast ++ '/' :: t := by
      simp [resolvePath, hc, expanduser, hdrop]
    rw [hres]
    have : home.dropLast ++ '/' :: t = home ++ t := by
      rw [List.append_cons, home_split hh]
    rw [this]
    exact startswith_append home t
  | false =>
    cases habs : startswith P (S "/") with
    | true =>
      have hunder : startswith P home = true := by
        rw [habs] at hno
        simp at hno
        exact hno
      have hres : resolvePath home P = P := by
        simp [resolvePath, ht, pyJoin, habs]
      rw [hres]
      exact hunder
    | false =>
      have hres : resolvePath home P = home ++ P := by
        simp [resolvePath, ht, pyJoin, habs, hne, hh]
      rw [hres]
      exact startswith_append home P

/-- Characterization of the validation of one dotfile entry: the entry is
accepted iff its resolution lies under home, exists, and its
home-relative name starts with a dot; each rejection carries its
specific error kind. -/
theorem resolveDotfile_cases (home : PyStr) (fs : PyStr → Bool)
    (hh : home.getLast? = some '/') (P : PyStr) :
    ((∃ q, resolveDotfile home fs P = .ok q) ↔
      startswith (resolvePath home P) home = true ∧
      fs (resolvePath home P) = true ∧
      startswith ((resolvePath home P).drop home.length) (S ".") = true) ∧
    (resolveDotfile home fs P = .error (.outsideHome, P) ↔
      startswith P (S "/") = true ∧ startswith P home = false) ∧
    (resolveDotfile home fs P = .error (.notFound, resolvePath home P) ↔
      (startswith P (S "/") && !startswith P home) = false ∧
      fs (resolvePath home P) = false) ∧
    (resolveDotfile home fs P = .error (.notADotfile, resolvePath home P) ↔
      (startswith P (S "/") && !startswith P home) = false ∧
      fs (resolvePath home P) = true ∧
      startswith ((resolvePath home P).drop home.length) (S ".") = false) := by
  cases hout : (startswith P (S "/") && !startswith P home) with
  | true =>
    have habs : startswith P (S "/") = true := by
      cases hc : startswith P (S "/")
      · rw [hc] at hout
        simp at hout
      · rfl
    have hunder : startswith P home = false := by
      rw [habs] at hout
      simp at hout
      exact hout
    have hres : resolveDotfile home fs P = .error (.outsideHome, P) := by
      simp [resolveDotfile, hout]
    have hd : resolvePath home P = P := by
      simp [resolvePath, abs_not_tilde habs, pyJoin, habs]
    refine ⟨?_, ?_, ?_, ?_⟩
    · rw [hres, hd]
      constructor
      · rintro ⟨q, hq⟩
        simp at hq
      · rintro ⟨h1, -⟩
        rw [h1] at hunder
        cases hunder
    · rw [hres]
      simp [habs, hunder]
    · rw [hres, hd]
      simp [hout]
    · rw [hres, hd]
      simp [hout]
  | false =>
    have hunder := resolvePath_under hh P hout
    have hcase : startswith P (S "/") = false ∨ startswith P home = true := by
      cases hc : startswith P (S "/") with
      | false => exact Or.inl rfl
      | true =>
        right
        rw [hc] at hout
        simpa using hout
    have hres : resolveDotfile home fs P =
        (if !fs (resolvePath home P) then
          .error (.notFound, resolvePath home P)
         else if !startswith ((resolvePath home P).drop home.length) (S ".")
           then .error (.notADotfile, resolvePath home P)
         else .ok (resolvePath home P)) := by
      simp [resolveDotfile, hout]
    obtain hfs | hfs := Bool.eq_false_or_eq_true (fs (resolvePath home P))
    · obtain hdot | hdot := Bool.eq_false_or_eq_true
        (startswith ((resolvePath home P).drop home.length) (S "."))
      · have hres2 : resolveDotfile home fs P = .ok (resolvePath home P) := by
          rw [hres]
          simp [hfs, hdot]
        refine ⟨?_, ?_, ?_, ?_⟩
        · rw [hres2]
          exact ⟨fun _ => ⟨hunder, hfs, hdot⟩,
            fun _ => ⟨resolvePath home P, rfl⟩⟩
        · rw [hres2]
          constructor
          · intro h
            simp at h
          · rintro ⟨h1, h2⟩
            rcases hcase with hc | hc
            · rw [h1] at hc
              simp at hc
            · rw [h2] at hc
              simp at hc
        · rw [hres2]
          constructor
          · intro h
            simp at h
          · rintro ⟨-, h2⟩
            rw [hfs] at h2
            simp at h2
        · rw [hres2]
          constructor
          · intro h
            simp at h
          · rintro ⟨-, -, h3⟩
            rw [hdot] at h3
            simp at h3
      · have hres2 : resolveDotfile home fs P =
            .error (.notADotfile, resolvePath home P) := by
          rw [hres]
          simp [hfs, hdot]
        refine ⟨?_, ?_, ?_, ?_⟩
        · rw [hres2]
          constructor
          · rintro ⟨q, hq⟩
            simp at hq
          · rintro ⟨-, -, h3⟩
            rw [hdot] at h3
            simp at h3
        · rw [hres2]
          constructor
          · intro h
            simp at h
          · rintro ⟨h1, h2⟩
            rcases hcase with hc | hc
            · rw [h1] at hc
              simp at hc
            · rw [h2] at hc
              simp at hc
        · rw [hres2]
          constructor
          · intro h
            simp at h
          · rintro ⟨-, h2⟩
            rw [hfs] at h2
            simp at h2
        · rw [hres2]
          exact ⟨fun _ => ⟨rfl, hfs, hdot⟩, fun _ => rfl⟩
    · have hres2 : resolveDotfile home fs P =
          .error (.notFound, resolvePath home P) := by
        rw [hres]
        simp [hfs]
      refine ⟨?_, ?_, ?_, ?_⟩
      · rw [hres2]
        constructor
        · rintro ⟨q, hq⟩
          simp at hq
        · rintro ⟨-, h2, -⟩
          rw [hfs] at h2
          simp at h2
      · rw [hres2]
        constructor
        · intro h
          simp at h
        · rintro ⟨h1, h2⟩
          rcases hcase with hc | hc
          · rw [h1] at hc
            simp at hc
          · rw [h2] at hc
            simp at hc
      · rw [hres2]
        exact ⟨fun _ => ⟨rfl, hfs⟩, fun _ => rfl⟩
      · rw [hres2]
        constructor
        · intro h
          simp at h
        · rintro ⟨-, h2, -⟩
          rw [hfs] at h2
          simp at h2

/-- The dotfile loop reports exactly the first failing entry: entries
are processed in input order and an error is produced iff some entry
fails while all entries before it succeed. -/
theorem validateDotfiles_first_error (home : PyStr) (fs : PyStr → Bool) :
    ∀ (ds : List PyStr) (err : DotfileError × PyStr),
      validateDotfiles home fs ds = .error err ↔
      ∃ pre d post, ds = pre ++ d :: post ∧
        (∀ x ∈ pre, ∃ q, resolveDotfile home fs x = .ok q) ∧
        resolveDotfile home fs d = .error err := by
  intro ds err
  induction ds with
  | nil =>
    simp only [validateDotfiles]
    constructor
    · intro h
      simp at h
    · rintro ⟨pre, d, post, hds, -, -⟩
      exact absurd hds (by simp)
  | cons d0 ds ih =>
    cases hr : resolveDotfile home fs d0 with
    | error e =>
      simp only [validateDotfiles, hr]
      constructor
      · intro h
        have he : e = err := by
          exact (Except.error.injEq _ _).mp h
        subst he
        exact ⟨[], d0, ds, rfl, by simp, hr⟩
      · rintro ⟨pre, d, post, hds, hpre, hd⟩
        cases pre with
        | nil =>
          simp only [List.nil_append, List.cons.injEq] at hds
          obtain ⟨rfl, rfl⟩ := hds
          rw [hr] at hd
          rw [(Except.error.injEq _ _).mp hd]
        | cons x pre =>
          simp only [List.cons_append, List.cons.injEq] at hds
          obtain ⟨rfl, rfl⟩ := hds
          obtain ⟨q, hq⟩ := hpre d0 (by simp)
          rw [hr] at hq
          simp at hq
    | ok q0 =>
      cases hrec : validateDotfiles home fs ds with
      | error e =>
        simp only [validateDotfiles, hr, hrec]
        constructor
        · intro h
          have he : e = err := (Except.error.injEq _ _).mp h
          subst he
          obtain ⟨pre, d, post, hds, hpre, hd⟩ := ih.mp hrec
          refine ⟨d0 :: pre, d, post, by rw [hds]; rfl, ?_, hd⟩
          intro x hx
          rcases List.mem_cons.mp hx with rfl | hx
          · exact ⟨q0, hr⟩
          · exact hpre x hx
        · rintro ⟨pre, d, post, hds, hpre, hd⟩
          cases pre with
          | nil =>
            simp only [List.nil_append, List.cons.injEq] at hds
            obtain ⟨rfl, rfl⟩ := hds
            rw [hr] at hd
            simp at hd
          | cons x pre =>
            simp only [List.cons_append, List.cons.injEq] at hds
            obtain ⟨rfl, rfl⟩ := hds
            have : validateDotfiles home fs (pre ++ d :: post) = .error err :=
              ih.mpr ⟨pre, d, post, rfl, fun y hy => hpre y (by simp [hy]), hd⟩
            rw [hrec] at this
            exact this
      | ok opts =>
        simp only [validateDotfiles, hr, hrec]
        constructor
        · intro h
          simp at h
        · rintro ⟨pre, d, post, hds, hpre, hd⟩
          cases pre with
          | nil =>
            simp only [List.nil_append, List.cons.injEq] at hds
            obtain ⟨rfl, rfl⟩ := hds
            rw [hr] at hd
            simp at hd
          | cons x pre =>
            simp only [List.cons_append, List.cons.injEq] at hds
            obtain ⟨rfl, rfl⟩ := hds
            have : validateDotfiles home fs (pre ++ d :: post) = .error err :=
              ih.mpr ⟨pre, d, post, rfl, fun y hy => hpre y (by simp [hy]), hd⟩
            rw [hrec] at this
            simp at this

/-- A dotfile validation failure ends the launch with the corresponding
exit and creates no container. -/
theorem launchPhase_dotfile_error (home : PyStr) (fs : PyStr → Bool)
    (directory tag : PyStr) (ports : List Int) (dotfiles : List PyStr)
    (jekyll : Bool) (o : Oracle) (err : DotfileError × PyStr)
    (h : validateDotfiles home fs dotfiles = .error err) :
    launchPhase home fs directory tag ports dotfiles jekyll o =
      [Event.exit (.msg (match validatePorts (effectivePorts ports) with
        | .error p => S "Invalid port: " ++ intStr p
        | .ok _ => dotfileErrMsg err))] := by
  unfold launchPhase
  cases hv : validatePorts (effectivePorts ports) with
  | error p => rfl
  | ok opts =>
    rw [h]

/-- C2: a dotfile entry is accepted iff it resolves to an existing path
under the home directory of the user whose home-relative name starts with a
dot; each failing case yields its specific error kind (`outsideHome`
for an absolute path not under home, `notFound` for a nonexistent
resolved path, `notADotfile` for a home-relative name not starting with
a dot); entries are processed in input order with the first violation
reported; and a violation aborts the launch with no container-creating
command issued. -/
theorem claim_C2_dotfile_validation :
    ∀ (home : PyStr) (fs : PyStr → Bool), home.getLast? = some '/' →
      (∀ P : PyStr,
        ((∃ q, resolveDotfile home fs P = .ok q) ↔
          startswith (resolvePath home P) home = true ∧
          fs (resolvePath home P) = true ∧
          startswith ((resolvePath home P).drop home.length) (S ".") =
            true) ∧
        (resolveDotfile home fs P = .error (.outsideHome, P) ↔
          startswith P (S "/") = true ∧ startswith P home = false) ∧
        (resolveDotfile home fs P = .error (.notFound, resolvePath home P) ↔
          (startswith P (S "/") && !startswith P home) = false ∧
          fs (resolvePath home P) = false) ∧
        (resolveDotfile home fs P =
            .error (.notADotfile, resolvePath home P) ↔
          (startswith P (S "/") && !startswith P home) = false ∧
          fs (resolvePath home P) = true ∧
          startswith ((resolvePath home P).drop home.length) (S ".") =
            false)) ∧
      (∀ (ds : List PyStr) (err : DotfileError × PyStr),
        validateDotfiles home fs ds = .error err ↔
        ∃ pre d post, ds = pre ++ d :: post ∧
          (∀ x ∈ pre, ∃ q, resolveDotfile home fs x = .ok q) ∧
          resolveDotfile home fs d = .error err) ∧
      (∀ (directory tag : PyStr) (ports : List Int) (dotfiles : List PyStr)
          (jekyll : Bool) (o : Oracle) (err : DotfileError × PyStr),
        validateDotfiles home fs dotfiles = .error err →
        launchPhase home fs directory tag ports dotfiles jekyll o =
          [Event.exit (.msg (match validatePorts (effectivePorts ports) with
            | .error p => S "Invalid port: " ++ intStr p
            | .ok _ => dotfileErrMsg err))] ∧
        runArgvs (launchPhase home fs directory tag ports dotfiles jekyll o) =
          []) := by
  intro home fs hh
  refine ⟨resolveDotfile_cases home fs hh, validateDotfiles_first_error home fs,
    ?_⟩
  intro directory tag ports dotfiles jekyll o err h
  have hl := launchPhase_dotfile_error home fs directory tag ports dotfiles
    jekyll o err h
  refine ⟨hl, ?_⟩
  rw [hl]
  rfl

/-- Witness for C2: on a concrete home and filesystem, the entry
`.bashrc` is accepted and the characterization instance evaluates. -/
theorem claim_C2_dotfile_validation_witness :
    (∃ q, resolveDotfile (S "/home/u/") FS0 (S ".bashrc") = .ok q) ↔
      startswith (resolvePath (S "/home/u/") (S ".bashrc")) (S "/home/u/") =
        true ∧
      FS0 (resolvePath (S "/home/u/") (S ".bashrc")) = true ∧
      startswith
        ((resolvePath (S "/home/u/") (S ".bashrc")).drop (S "/home/u/").length)
        (S ".") = true :=
  ((claim_C2_dotfile_validation (S "/home/u/") FS0 (by decide)).1
    (S ".bashrc")).1

end Cli50
